import Mathlib

/-!
Shallow embedding of the ledger logic of the banking application
(`src/main.py`, class `BankingSystem`; `src/Firebase_code.py` is a
near-duplicate of the same logic over a document store).

Monetary amounts (sqlite REAL) are modelled as `ℚ`; the accounts,
transactions and loans tables are modelled as lists of records; the
sqlite AUTOINCREMENT loan id is modelled by `loans.length + 1`, which
matches because the program never deletes a loan row.
-/

namespace BankSys

/-- Embeds a row of the `accounts` table (`create_tables`, src/main.py):
`account_no` is the PRIMARY KEY, `password` stores the SHA-256 hex digest,
`balance` defaults to 0. -/
structure Account where
  account_no : String
  name : String
  password : String
  balance : ℚ
  email : String
  deriving DecidableEq

/-- Embeds a row of the `transactions` table: owning `account_no`,
`transaction_type` (deposit, withdraw, transfer_out, transfer_in,
loan_disbursement, loan_payment), `amount`, `category`, and the optional
`recipient_account` counterparty used by transfers. -/
structure Txn where
  account_no : String
  transaction_type : String
  amount : ℚ
  category : String
  recipient_account : Option String
  deriving DecidableEq

/-- Embeds a row of the `loans` table: `loan_id` PRIMARY KEY AUTOINCREMENT,
owning account, principal `amount`, `interest_rate` (percent), term in
months, computed `monthly_payment`, `remaining_amount`, and `status`
(the program writes only "active" or "completed"). -/
structure Loan where
  loan_id : Nat
  account_no : String
  amount : ℚ
  interest_rate : ℚ
  term_months : Nat
  monthly_payment : ℚ
  remaining_amount : ℚ
  status : String
  deriving DecidableEq

/-- The persistent store: the three tables of `create_tables`. -/
structure BankState where
  accounts : List Account
  transactions : List Txn
  loans : List Loan
  deriving DecidableEq

/-- Balance lookup on the accounts table: first row whose `account_no`
matches, its balance; `account_no` being the primary key there is at most
one such row. -/
def balanceOf (l : List Account) (acc : String) : ℚ :=
  match l.find? (fun a => a.account_no == acc) with
  | some a => a.balance
  | none => 0

/-- Embeds `BankingSystem.get_balance` (src/main.py lines 128-135): returns
the stored balance, and `0.0` when no row with that `account_no` exists. -/
def get_balance (s : BankState) (acc : String) : ℚ :=
  balanceOf s.accounts acc

/-- Whether an accounts row with this `account_no` exists (the
`SELECT account_no FROM accounts WHERE account_no = ?` existence check). -/
def account_exists (s : BankState) (acc : String) : Bool :=
  s.accounts.any (fun a => a.account_no == acc)

/-- Embeds `UPDATE accounts SET balance = balance + ? WHERE account_no = ?`:
every matching row (at most one, by the primary key) has `d` added to its
balance. -/
def updateBalance (l : List Account) (acc : String) (d : ℚ) : List Account :=
  l.map (fun a => if a.account_no == acc then { a with balance := a.balance + d } else a)

/-- Embeds `BankingSystem.record_transaction` (src/main.py lines 137-173).
A withdrawal with `amount > current_balance` rolls back and returns
`False`; otherwise the transaction row is inserted and the balance is
adjusted (+amount for deposit, -amount for withdraw, untouched for any
other type), and the call returns `True`. The declined path returns the
state unchanged, matching the ROLLBACK before any write. -/
def record_transaction (s : BankState) (acc ty : String) (amount : ℚ)
    (category : String) (recipient : Option String) : Bool × BankState :=
  if ty = "withdraw" ∧ get_balance s acc < amount then
    (false, s)
  else
    let txns := s.transactions ++ [⟨acc, ty, amount, category, recipient⟩]
    let accounts :=
      if ty = "deposit" then updateBalance s.accounts acc amount
      else if ty = "withdraw" then updateBalance s.accounts acc (-amount)
      else s.accounts
    (true, ⟨accounts, txns, s.loans⟩)

/-- Embeds `BankingSystem.transfer_money` (src/main.py lines 175-220):
declines with "Recipient account not found" when no accounts row for
`to_acc` exists, then with "Insufficient funds" when `amount` exceeds the
sender's `get_balance`; otherwise debits the sender, credits the
recipient, and inserts the `transfer_out` and `transfer_in` rows in that
order, all inside one sqlite transaction. -/
def transfer_money (s : BankState) (from_acc to_acc : String) (amount : ℚ) :
    (Bool × String) × BankState :=
  if account_exists s to_acc = false then
    ((false, "Recipient account not found"), s)
  else if get_balance s from_acc < amount then
    ((false, "Insufficient funds"), s)
  else
    let accounts := updateBalance (updateBalance s.accounts from_acc (-amount)) to_acc amount
    let txns := s.transactions ++
      [⟨from_acc, "transfer_out", amount, "Transfer", some to_acc⟩,
       ⟨to_acc, "transfer_in", amount, "Transfer", some from_acc⟩]
    ((true, "Transfer successful"), ⟨accounts, txns, s.loans⟩)

/-- Embeds `BankingSystem.apply_for_loan` (src/main.py lines 222-260).
With `term_months = 0` the Python `total_amount / term_months` raises
ZeroDivisionError, the generic handler rolls back and returns
`(False, "Loan application failed: division by zero")`; otherwise simple
interest is `amount * interest_rate * term_months / (12 * 100)`, the loan
row is inserted with status "active" and `remaining_amount` equal to
principal plus interest, the account balance is credited by the
principal, and a `loan_disbursement` transaction of the principal is
recorded. -/
def apply_for_loan (s : BankState) (acc : String) (amount : ℚ)
    (term_months : Nat) (interest_rate : ℚ) : (Bool × String) × BankState :=
  if term_months = 0 then
    ((false, "Loan application failed: division by zero"), s)
  else
    let total_interest := (amount * interest_rate * (term_months : ℚ)) / (12 * 100)
    let total_amount := amount + total_interest
    let monthly_payment := total_amount / (term_months : ℚ)
    let loan : Loan :=
      ⟨s.loans.length + 1, acc, amount, interest_rate, term_months,
        monthly_payment, total_amount, "active"⟩
    let accounts := updateBalance s.accounts acc amount
    let txns := s.transactions ++ [⟨acc, "loan_disbursement", amount, "Loan", none⟩]
    ((true, "Loan approved"), ⟨accounts, txns, s.loans ++ [loan]⟩)

/-- Loan lookup by `loan_id` alone (primary key). -/
def getLoan (s : BankState) (lid : Nat) : Option Loan :=
  s.loans.find? (fun l => l.loan_id == lid)

/-- Embeds the `SELECT ... FROM loans WHERE loan_id = ? AND status = 'active'`
lookup at the start of `make_loan_payment`. -/
def findActiveLoan (s : BankState) (lid : Nat) : Option Loan :=
  s.loans.find? (fun l => l.loan_id == lid && l.status == "active")

/-- Embeds `BankingSystem.make_loan_payment` (src/main.py lines 277-335):
declines with "Loan not found or inactive" when no active loan with this
id exists, then with "Insufficient funds" when the owning account's
balance is below the payment; otherwise the loan row gets
`remaining_amount` set to the Python-computed `new_remaining` and status
per the SQL CASE `WHEN remaining_amount - ? <= 0 THEN 'completed'`
(evaluated on the row's old `remaining_amount`), the account is debited,
and one `loan_payment` transaction is inserted. -/
def make_loan_payment (s : BankState) (lid : Nat) (payment_amount : ℚ) :
    (Bool × String) × BankState :=
  match findActiveLoan s lid with
  | none => ((false, "Loan not found or inactive"), s)
  | some loan =>
    if get_balance s loan.account_no < payment_amount then
      ((false, "Insufficient funds"), s)
    else
      let loans := s.loans.map (fun l =>
        if l.loan_id == lid then
          { l with
              remaining_amount := loan.remaining_amount - payment_amount,
              status := if l.remaining_amount - payment_amount ≤ 0 then "completed" else "active" }
        else l)
      let accounts := updateBalance s.accounts loan.account_no (-payment_amount)
      let txns := s.transactions ++
        [⟨loan.account_no, "loan_payment", payment_amount, "Loan Payment", none⟩]
      ((true, "Payment successful"), ⟨accounts, txns, loans⟩)

/-- Embeds `BankingSystem.validate_login` (src/main.py lines 103-114): the
row whose `account_no` and stored password hash both match, projected to
`(account_no, name, email, balance)`; `none` models the empty result set.
The SHA-256 digest function is passed as the abstract parameter `hash`. -/
def validate_login (hash : String → String) (s : BankState) (acc pw : String) :
    Option (String × String × String × ℚ) :=
  match s.accounts.find? (fun a => a.account_no == acc && a.password == hash pw) with
  | some a => some (a.account_no, a.name, a.email, a.balance)
  | none => none

/-- Character class `[a-zA-Z0-9._%+-]` of the local part of the email
regex in `validate_email`. -/
def isLocalChar (c : Char) : Bool :=
  c.isAlphanum || c == '.' || c == '_' || c == '%' || c == '+' || c == '-'

/-- Character class `[a-zA-Z0-9.-]` of the domain part of the email regex. -/
def isDomainChar (c : Char) : Bool :=
  c.isAlphanum || c == '.' || c == '-'

/-- Matches `[a-zA-Z]{2,}$`: at least two characters, all ASCII letters. -/
def matchTld (cs : List Char) : Bool :=
  2 ≤ cs.length && cs.all Char.isAlpha

/-- Matches `[a-zA-Z0-9.-]+\.[a-zA-Z]{2,}$` with backtracking: some split
after at least one domain character hits a dot followed by the TLD. -/
def matchDomain (cs : List Char) : Bool :=
  (List.range cs.length).any (fun i =>
    decide (0 < i) && (cs.take i).all isDomainChar &&
    (match cs.drop i with
     | '.' :: t => matchTld t
     | _ => false))

/-- Embeds `BankingSystem.validate_email` (src/main.py lines 27-29), the
regex `^[a-zA-Z0-9._%+-]+@[a-zA-Z0-9.-]+\.[a-zA-Z]{2,}$`. Neither
character class contains `@`, so the pattern's `@` can only match the
first `@` of the string. -/
def validate_email (email : String) : Bool :=
  let cs := email.toList
  let p := cs.span (fun c => c != '@')
  match p.2 with
  | '@' :: rest => !p.1.isEmpty && p.1.all isLocalChar && matchDomain rest
  | _ => false

/-- Result of `create_account` (src/main.py lines 81-101): the Python
function either returns the generated account number or raises
`ValueError` (invalid email is re-wrapped by the generic handler into
"Error creating account: Invalid email format"; the sqlite UNIQUE
violation on email becomes "Email already registered"). There is no
non-raising failure return in the source. -/
inductive CreateOutcome where
  | raisedValueError (msg : String)
  | ok (account_no : String)
  deriving DecidableEq

/-- Embeds `BankingSystem.create_account`. The uuid-derived fresh account
number is environmental input, passed as `fresh_id`; the duplicate-email
check models the UNIQUE constraint on `accounts.email`. A new row has
balance 0 and the hashed password. -/
def create_account (hash : String → String) (fresh_id : String) (s : BankState)
    (name pw email : String) : CreateOutcome × BankState :=
  if validate_email email = false then
    (CreateOutcome.raisedValueError "Error creating account: Invalid email format", s)
  else if s.accounts.any (fun a => a.email == email) then
    (CreateOutcome.raisedValueError "Email already registered", s)
  else
    (CreateOutcome.ok fresh_id,
      { s with accounts := s.accounts ++ [⟨fresh_id, name, hash pw, 0, email⟩] })

/-- Signed value of a transaction row as in the spec's accounting
identity: inflows (deposit, transfer_in, loan_disbursement) count
positive, outflows (withdraw, transfer_out, loan_payment) negative. -/
def signedAmount (t : Txn) : ℚ :=
  if t.transaction_type = "deposit" ∨ t.transaction_type = "transfer_in" ∨
      t.transaction_type = "loan_disbursement" then t.amount
  else if t.transaction_type = "withdraw" ∨ t.transaction_type = "transfer_out" ∨
      t.transaction_type = "loan_payment" then -t.amount
  else 0

/-- Sum of the signed amounts of an account's recorded transactions. -/
def signedSum (s : BankState) (acc : String) : ℚ :=
  ((s.transactions.filter (fun t => t.account_no == acc)).map signedAmount).sum

/-- Total system balance: sum of the balances of all accounts rows. -/
def totalBalance (s : BankState) : ℚ :=
  (s.accounts.map (fun a => a.balance)).sum

/-- A user-driven operation on a single account through the
Deposit/Withdraw forms of the UI, which call `record_transaction` with
type "deposit" or "withdraw" and no recipient. -/
inductive Op where
  | deposit (amount : ℚ) (category : String)
  | withdraw (amount : ℚ) (category : String)
  deriving DecidableEq

/-- Run one deposit/withdraw operation against the account `acc`. -/
def applyOp (s : BankState) (acc : String) : Op → BankState
  | Op.deposit a c => (record_transaction s acc "deposit" a c none).2
  | Op.withdraw a c => (record_transaction s acc "withdraw" a c none).2

/-- Run a sequence of deposit/withdraw operations against `acc`. -/
def runOps (s : BankState) (acc : String) (ops : List Op) : BankState :=
  ops.foldl (fun st op => applyOp st acc op) s

end BankSys

namespace BankSys

/-- Updating the balance of `acc` rewrites exactly the row that
`find?` on `acc` returns. -/
theorem find?_updateBalance (l : List Account) (acc : String) (d : ℚ) :
    (updateBalance l acc d).find? (fun a => a.account_no == acc)
      = (l.find? (fun a => a.account_no == acc)).map
          (fun a => { a with balance := a.balance + d }) := by
  induction l with
  | nil => rfl
  | cons a l ih =>
    by_cases h : a.account_no = acc
    · simp [updateBalance, List.find?_cons, h]
    · simp only [updateBalance, List.map_cons] at *
      rw [if_neg (by simp [h]), List.find?_cons_of_neg _ (by simp [h]),
        List.find?_cons_of_neg _ (by simp [h])]
      exact ih

/-- `updateBalance` does not change which account numbers exist. -/
theorem any_account_no_updateBalance (l : List Account) (acc x : String) (d : ℚ) :
    (updateBalance l acc d).any (fun a => a.account_no == x)
      = l.any (fun a => a.account_no == x) := by
  unfold updateBalance
  rw [List.any_map]
  congr 1
  funext a
  by_cases h : a.account_no == acc <;> simp [h, Function.comp]

/-- Reading back the updated balance: when the account exists, the
update adds exactly `d`. -/
theorem balanceOf_updateBalance (l : List Account) (acc : String) (d : ℚ)
    (h : l.any (fun a => a.account_no == acc) = true) :
    balanceOf (updateBalance l acc d) acc = balanceOf l acc + d := by
  unfold balanceOf
  rw [find?_updateBalance]
  cases hf : l.find? (fun a => a.account_no == acc) with
  | none =>
    rw [List.find?_eq_none] at hf
    obtain ⟨a, ha, hp⟩ := List.any_eq_true.mp h
    exact absurd hp (by simp [hf a ha])
  | some a => simp

/-- Summed balances after `updateBalance`: each matching row contributes
one extra `d`. -/
theorem sum_map_updateBalance (l : List Account) (acc : String) (d : ℚ) :
    ((updateBalance l acc d).map (fun a => a.balance)).sum
      = (l.map (fun a => a.balance)).sum
        + (l.countP (fun a => a.account_no == acc) : ℚ) * d := by
  induction l with
  | nil => simp [updateBalance]
  | cons a l ih =>
    by_cases h : a.account_no = acc
    · simp only [updateBalance, List.map_cons, List.countP_cons] at *
      rw [if_pos (by simp [h])]
      simp only [List.map_cons, List.sum_cons]
      rw [ih]
      simp [h]
      ring
    · simp only [updateBalance, List.map_cons, List.countP_cons] at *
      rw [if_neg (by simp [h])]
      simp only [List.map_cons, List.sum_cons]
      rw [ih]
      simp [h]
      ring

/-- On a table whose account numbers are pairwise distinct (the PRIMARY
KEY invariant of `accounts`), an existing account number matches exactly
one row. -/
theorem countP_account_no_eq_one (l : List Account) (acc : String)
    (hn : (l.map (fun a => a.account_no)).Nodup)
    (h : l.any (fun a => a.account_no == acc) = true) :
    l.countP (fun a => a.account_no == acc) = 1 := by
  induction l with
  | nil => simp at h
  | cons a l ih =>
    simp only [List.map_cons, List.nodup_cons] at hn
    by_cases hh : a.account_no = acc
    · rw [List.countP_cons]
      have hz : l.countP (fun a => a.account_no == acc) = 0 := by
        rw [List.countP_eq_zero]
        intro b hb
        simp only [beq_iff_eq]
        intro hbe
        exact hn.1 (hh ▸ hbe ▸ List.mem_map_of_mem (fun a => a.account_no) hb)
      simp [hz, hh]
    · rw [List.countP_cons]
      have h' : l.any (fun a => a.account_no == acc) = true := by
        rcases List.any_eq_true.mp h with ⟨b, hb, hp⟩
        rcases List.mem_cons.mp hb with rfl | hbl
        · exact absurd (by simpa using hp) hh
        · exact List.any_eq_true.mpr ⟨b, hbl, hp⟩
      simp [ih hn.2 h', hh]

end BankSys

namespace BankSys

/-- Branch equation: a deposit always succeeds, appends its row and
credits the balance. -/
theorem record_transaction_deposit (s : BankState) (acc : String) (a : ℚ)
    (c : String) (r : Option String) :
    record_transaction s acc "deposit" a c r
      = (true, ⟨updateBalance s.accounts acc a,
          s.transactions ++ [⟨acc, "deposit", a, c, r⟩], s.loans⟩) := by
  simp [record_transaction]

/-- Branch equation: a withdrawal above the current balance is declined
with the state unchanged. -/
theorem record_transaction_withdraw_declined (s : BankState) (acc : String) (a : ℚ)
    (c : String) (r : Option String) (h : get_balance s acc < a) :
    record_transaction s acc "withdraw" a c r = (false, s) := by
  simp [record_transaction, h]

/-- Branch equation: a covered withdrawal appends its row and debits the
balance. -/
theorem record_transaction_withdraw_ok (s : BankState) (acc : String) (a : ℚ)
    (c : String) (r : Option String) (h : ¬ get_balance s acc < a) :
    record_transaction s acc "withdraw" a c r
      = (true, ⟨updateBalance s.accounts acc (-a),
          s.transactions ++ [⟨acc, "withdraw", a, c, r⟩], s.loans⟩) := by
  simp [record_transaction, h]

/-- Appending one transaction owned by `acc` adds its signed amount to
the account's signed sum. -/
theorem signedSum_append (accs : List Account) (txns : List Txn) (loans : List Loan)
    (t : Txn) (acc : String) (h : t.account_no = acc) :
    signedSum ⟨accs, txns ++ [t], loans⟩ acc
      = signedSum ⟨accs, txns, loans⟩ acc + signedAmount t := by
  unfold signedSum
  simp [List.filter_append, h]

/-- Deposit/withdraw operations never create or delete accounts rows. -/
theorem account_exists_applyOp (s : BankState) (acc x : String) (op : Op) :
    account_exists (applyOp s acc op) x = account_exists s x := by
  cases op with
  | deposit a c =>
    show account_exists (record_transaction s acc "deposit" a c none).2 x = _
    rw [record_transaction_deposit]
    exact any_account_no_updateBalance _ _ _ _
  | withdraw a c =>
    show account_exists (record_transaction s acc "withdraw" a c none).2 x = _
    by_cases hlt : get_balance s acc < a
    · rw [record_transaction_withdraw_declined _ _ _ _ _ hlt]
    · rw [record_transaction_withdraw_ok _ _ _ _ _ hlt]
      exact any_account_no_updateBalance _ _ _ _

/-- One deposit or withdraw preserves the accounting identity. -/
theorem applyOp_ident (s : BankState) (acc : String) (op : Op)
    (hex : account_exists s acc = true)
    (hinv : get_balance s acc = signedSum s acc) :
    get_balance (applyOp s acc op) acc = signedSum (applyOp s acc op) acc := by
  cases op with
  | deposit a c =>
    show get_balance (record_transaction s acc "deposit" a c none).2 acc
      = signedSum (record_transaction s acc "deposit" a c none).2 acc
    rw [record_transaction_deposit]
    show get_balance ⟨updateBalance s.accounts acc a, _, _⟩ acc = _
    rw [signedSum_append (updateBalance s.accounts acc a) s.transactions s.loans
      ⟨acc, "deposit", a, c, none⟩ acc rfl]
    unfold get_balance
    rw [balanceOf_updateBalance _ _ _ hex]
    have hs : signedAmount ⟨acc, "deposit", a, c, none⟩ = a := by
      simp [signedAmount]
    rw [hs]
    have he : signedSum ⟨updateBalance s.accounts acc a, s.transactions, s.loans⟩ acc
        = signedSum s acc := rfl
    rw [he, ← hinv]
    rfl
  | withdraw a c =>
    show get_balance (record_transaction s acc "withdraw" a c none).2 acc
      = signedSum (record_transaction s acc "withdraw" a c none).2 acc
    by_cases hlt : get_balance s acc < a
    · rw [record_transaction_withdraw_declined _ _ _ _ _ hlt]
      exact hinv
    · rw [record_transaction_withdraw_ok _ _ _ _ _ hlt]
      show get_balance ⟨updateBalance s.accounts acc (-a), _, _⟩ acc = _
      rw [signedSum_append (updateBalance s.accounts acc (-a)) s.transactions s.loans
        ⟨acc, "withdraw", a, c, none⟩ acc rfl]
      unfold get_balance
      rw [balanceOf_updateBalance _ _ _ hex]
      have hs : signedAmount ⟨acc, "withdraw", a, c, none⟩ = -a := by
        simp [signedAmount]
      rw [hs]
      have he : signedSum ⟨updateBalance s.accounts acc (-a), s.transactions, s.loans⟩ acc
          = signedSum s acc := rfl
      rw [he, ← hinv]
      rfl

/-- The accounting identity is inductive along a whole operation
sequence. -/
theorem runOps_ident (acc : String) (ops : List Op) :
    ∀ s : BankState, account_exists s acc = true →
      get_balance s acc = signedSum s acc →
      account_exists (runOps s acc ops) acc = true ∧
      get_balance (runOps s acc ops) acc = signedSum (runOps s acc ops) acc := by
  induction ops with
  | nil => exact fun s h1 h2 => ⟨h1, h2⟩
  | cons op ops ih =>
    intro s h1 h2
    have hstep : runOps s acc (op :: ops) = runOps (applyOp s acc op) acc ops := rfl
    rw [hstep]
    have e1 : account_exists (applyOp s acc op) acc = true := by
      rw [account_exists_applyOp]; exact h1
    exact ih (applyOp s acc op) e1 (applyOp_ident s acc op h1 h2)

end BankSys

namespace BankSys

/-- Branch equation: transfer to a nonexistent recipient declines. -/
theorem transfer_money_not_found (s : BankState) (fa ta : String) (amount : ℚ)
    (h : account_exists s ta = false) :
    transfer_money s fa ta amount = ((false, "Recipient account not found"), s) := by
  unfold transfer_money
  rw [if_pos h]

/-- Branch equation: transfer above the sender's balance declines. -/
theorem transfer_money_insufficient (s : BankState) (fa ta : String) (amount : ℚ)
    (h1 : account_exists s ta = true) (h2 : get_balance s fa < amount) :
    transfer_money s fa ta amount = ((false, "Insufficient funds"), s) := by
  unfold transfer_money
  rw [if_neg (by simp [h1]), if_pos h2]

/-- Branch equation: a covered transfer to an existing recipient debits
the sender, credits the recipient and appends the matched pair of rows. -/
theorem transfer_money_ok (s : BankState) (fa ta : String) (amount : ℚ)
    (h1 : account_exists s ta = true) (h2 : ¬ get_balance s fa < amount) :
    transfer_money s fa ta amount
      = ((true, "Transfer successful"),
         ⟨updateBalance (updateBalance s.accounts fa (-amount)) ta amount,
          s.transactions ++ [⟨fa, "transfer_out", amount, "Transfer", some ta⟩,
                             ⟨ta, "transfer_in", amount, "Transfer", some fa⟩],
          s.loans⟩) := by
  unfold transfer_money
  rw [if_neg (by simp [h1]), if_neg h2]

/-- Branch equation: a loan application with a nonzero term is approved
with the computed simple-interest figures. -/
theorem apply_for_loan_ok (s : BankState) (acc : String) (amount : ℚ)
    (term_months : Nat) (interest_rate : ℚ) (h : term_months ≠ 0) :
    apply_for_loan s acc amount term_months interest_rate
      = ((true, "Loan approved"),
         ⟨updateBalance s.accounts acc amount,
          s.transactions ++ [⟨acc, "loan_disbursement", amount, "Loan", none⟩],
          s.loans ++ [⟨s.loans.length + 1, acc, amount, interest_rate, term_months,
            (amount + (amount * interest_rate * (term_months : ℚ)) / (12 * 100)) / (term_months : ℚ),
            amount + (amount * interest_rate * (term_months : ℚ)) / (12 * 100), "active"⟩]⟩) := by
  unfold apply_for_loan
  rw [if_neg h]

/-- Branch equation: payment on a missing or inactive loan declines. -/
theorem make_loan_payment_not_found (s : BankState) (lid : Nat) (p : ℚ)
    (h : findActiveLoan s lid = none) :
    make_loan_payment s lid p = ((false, "Loan not found or inactive"), s) := by
  unfold make_loan_payment
  rw [h]

/-- Branch equation: payment above the owning account's balance declines. -/
theorem make_loan_payment_insufficient (s : BankState) (lid : Nat) (p : ℚ) (loan : Loan)
    (h : findActiveLoan s lid = some loan) (h2 : get_balance s loan.account_no < p) :
    make_loan_payment s lid p = ((false, "Insufficient funds"), s) := by
  unfold make_loan_payment
  rw [h]
  exact if_pos h2

/-- Branch equation: a covered payment rewrites the loan row, debits the
account and appends the `loan_payment` row. -/
theorem make_loan_payment_ok (s : BankState) (lid : Nat) (p : ℚ) (loan : Loan)
    (h : findActiveLoan s lid = some loan) (h2 : ¬ get_balance s loan.account_no < p) :
    make_loan_payment s lid p
      = ((true, "Payment successful"),
         ⟨updateBalance s.accounts loan.account_no (-p),
          s.transactions ++ [⟨loan.account_no, "loan_payment", p, "Loan Payment", none⟩],
          s.loans.map (fun l =>
            if l.loan_id == lid then
              { l with
                  remaining_amount := loan.remaining_amount - p,
                  status := if l.remaining_amount - p ≤ 0 then "completed" else "active" }
            else l)⟩) := by
  unfold make_loan_payment
  rw [h]
  exact if_neg h2

/-- Concrete store used by the witness theorems: two registered
accounts, Alice with balance 0 and Bob with balance 10. -/
def wAccounts : List Account :=
  [⟨"A1", "Alice", "h1", 0, "alice@mail.com"⟩,
   ⟨"B2", "Bob", "h2", 10, "bob@mail.com"⟩]

/-- Concrete witness store with an empty transaction log and no loans. -/
def wState : BankState := ⟨wAccounts, [], []⟩

/-- C1: for every sequence of deposit and withdraw operations performed
on a single account starting from its creation (the account is
registered with balance 0 and no recorded transactions), the final
balance equals the sum of its signed recorded transaction amounts,
deposits counted positive and withdrawals negative. -/
theorem C1_accounting_identity (s : BankState) (acc : String) (ops : List Op)
    (hex : account_exists s acc = true)
    (hbal : get_balance s acc = 0)
    (htx : s.transactions.filter (fun t => t.account_no == acc) = []) :
    get_balance (runOps s acc ops) acc = signedSum (runOps s acc ops) acc := by
  have h0 : signedSum s acc = 0 := by
    unfold signedSum
    rw [htx]
    simp
  exact (runOps_ident acc ops s hex (by rw [hbal, h0])).2

/-- Witness for C1 on a concrete run: deposit 5, withdraw 3, then a
declined withdraw 10 on Alice's fresh account. -/
theorem C1_accounting_identity_witness :
    get_balance (runOps wState "A1"
        [Op.deposit 5 "Salary", Op.withdraw 3 "Food", Op.withdraw 10 "Food"]) "A1"
      = signedSum (runOps wState "A1"
        [Op.deposit 5 "Salary", Op.withdraw 3 "Food", Op.withdraw 10 "Food"]) "A1" :=
  C1_accounting_identity wState "A1" _ (by decide) (by decide) (by decide)

/-- C6: `transfer_money` fails with a recipient-not-found result
whenever the recipient does not exist; with the recipient existing it
fails with insufficient funds whenever the sender's balance is below the
amount, and succeeds otherwise. -/
theorem C6_transfer_error_contract (s : BankState) (fa ta : String) (amount : ℚ) :
    (account_exists s ta = false →
      transfer_money s fa ta amount = ((false, "Recipient account not found"), s))
    ∧ (account_exists s ta = true → get_balance s fa < amount →
      transfer_money s fa ta amount = ((false, "Insufficient funds"), s))
    ∧ (account_exists s ta = true → ¬ get_balance s fa < amount →
      ((transfer_money s fa ta amount).1).1 = true ∧
      ((transfer_money s fa ta amount).1).2 = "Transfer successful") := by
  refine ⟨fun h => transfer_money_not_found s fa ta amount h,
    fun h1 h2 => transfer_money_insufficient s fa ta amount h1 h2,
    fun h1 h2 => ?_⟩
  rw [transfer_money_ok s fa ta amount h1 h2]
  exact ⟨rfl, rfl⟩

/-- Witness for C6: transferring from Bob to an unknown account number
declines with the recipient-not-found result. -/
theorem C6_transfer_error_contract_witness :
    transfer_money wState "B2" "GHOST" 4 = ((false, "Recipient account not found"), wState) :=
  (C6_transfer_error_contract wState "B2" "GHOST" 4).1 (by decide)

/-- C7: every business-rule decline is atomic: a declined
`record_transaction`, `transfer_money` or `make_loan_payment` returns
the store exactly as it was, and a withdrawal above the current balance
always declines. -/
theorem C7_declines_atomic (s : BankState) :
    (∀ acc ty amount cat rec, (record_transaction s acc ty amount cat rec).1 = false →
        (record_transaction s acc ty amount cat rec).2 = s)
    ∧ (∀ fa ta amount, ((transfer_money s fa ta amount).1).1 = false →
        (transfer_money s fa ta amount).2 = s)
    ∧ (∀ lid p, ((make_loan_payment s lid p).1).1 = false →
        (make_loan_payment s lid p).2 = s)
    ∧ (∀ acc amount cat rec, get_balance s acc < amount →
        record_transaction s acc "withdraw" amount cat rec = (false, s)) := by
  refine ⟨?_, ?_, ?_, ?_⟩
  · intro acc ty amount cat rec h
    by_cases hc : ty = "withdraw" ∧ get_balance s acc < amount
    · unfold record_transaction
      rw [if_pos hc]
    · unfold record_transaction at h
      rw [if_neg hc] at h
      simp at h
  · intro fa ta amount h
    by_cases h1 : account_exists s ta = false
    · rw [transfer_money_not_found s fa ta amount h1]
    · have h1' : account_exists s ta = true := by
        cases hx : account_exists s ta
        · exact absurd hx h1
        · rfl
      by_cases h2 : get_balance s fa < amount
      · rw [transfer_money_insufficient s fa ta amount h1' h2]
      · rw [transfer_money_ok s fa ta amount h1' h2] at h
        simp at h
  · intro lid p h
    cases hf : findActiveLoan s lid with
    | none => rw [make_loan_payment_not_found s lid p hf]
    | some loan =>
      by_cases h2 : get_balance s loan.account_no < p
      · rw [make_loan_payment_insufficient s lid p loan hf h2]
      · rw [make_loan_payment_ok s lid p loan hf h2] at h
        simp at h
  · exact fun acc amount cat rec h => record_transaction_withdraw_declined s acc amount cat rec h

/-- Witness for C7: withdrawing 7 from Alice's zero-balance account
declines and leaves the store untouched. -/
theorem C7_declines_atomic_witness :
    record_transaction wState "A1" "withdraw" 7 "Food" none = (false, wState) :=
  (C7_declines_atomic wState).2.2.2 "A1" 7 "Food" none (by decide)

/-- C10: for an account identifier with no accounts row, `get_balance`
returns 0 rather than an error, so the balance-checking callers treat it
exactly like an existing zero-balance account: a positive withdrawal
declines and a positive transfer out of it declines with insufficient
funds. -/
theorem C10_ghost_balance_zero (s : BankState) (acc : String)
    (h : ∀ a ∈ s.accounts, a.account_no ≠ acc) :
    get_balance s acc = 0
    ∧ (∀ amount cat rec, 0 < amount →
        record_transaction s acc "withdraw" amount cat rec = (false, s))
    ∧ (∀ ta amount, account_exists s ta = true → 0 < amount →
        transfer_money s acc ta amount = ((false, "Insufficient funds"), s)) := by
  have hb : get_balance s acc = 0 := by
    unfold get_balance balanceOf
    have hn : s.accounts.find? (fun a => a.account_no == acc) = none := by
      rw [List.find?_eq_none]
      intro a ha
      simp [h a ha]
    rw [hn]
  refine ⟨hb, ?_, ?_⟩
  · intro amount cat rec h0
    exact record_transaction_withdraw_declined s acc amount cat rec (by rw [hb]; exact h0)
  · intro ta amount hta h0
    exact transfer_money_insufficient s acc ta amount hta (by rw [hb]; exact h0)

/-- Witness for C10 at the unknown identifier GHOST. -/
theorem C10_ghost_balance_zero_witness :
    get_balance wState "GHOST" = 0 :=
  (C10_ghost_balance_zero wState "GHOST" (by decide)).1

end BankSys

namespace BankSys

/-- `updateBalance` leaves the multiplicity of every account number
unchanged. -/
theorem countP_updateBalance (l : List Account) (acc x : String) (d : ℚ) :
    (updateBalance l acc d).countP (fun a => a.account_no == x)
      = l.countP (fun a => a.account_no == x) := by
  unfold updateBalance
  rw [List.countP_map]
  congr 1
  funext a
  by_cases h : a.account_no == acc <;> simp [h, Function.comp]

/-- C2: on an accounts table with unique account numbers (the PRIMARY
KEY invariant) and a registered sender, a `transfer_money` call that
returns success appends exactly the matched pair of rows — `transfer_out`
on the sender with the recipient as counterparty, then `transfer_in` on
the recipient with the sender as counterparty, both of the transferred
amount — and leaves the total system balance unchanged. -/
theorem C2_transfer_pair_conservation (s : BankState) (fa ta : String) (amount : ℚ)
    (hnodup : (s.accounts.map (fun a => a.account_no)).Nodup)
    (hfa : account_exists s fa = true)
    (hsucc : ((transfer_money s fa ta amount).1).1 = true) :
    (transfer_money s fa ta amount).2.transactions
      = s.transactions ++ [⟨fa, "transfer_out", amount, "Transfer", some ta⟩,
                           ⟨ta, "transfer_in", amount, "Transfer", some fa⟩]
    ∧ totalBalance (transfer_money s fa ta amount).2 = totalBalance s := by
  have hta : account_exists s ta = true := by
    cases hx : account_exists s ta
    · rw [transfer_money_not_found s fa ta amount hx] at hsucc
      simp at hsucc
    · rfl
  have h2 : ¬ get_balance s fa < amount := by
    intro hlt
    rw [transfer_money_insufficient s fa ta amount hta hlt] at hsucc
    simp at hsucc
  rw [transfer_money_ok s fa ta amount hta h2]
  refine ⟨rfl, ?_⟩
  show ((updateBalance (updateBalance s.accounts fa (-amount)) ta amount).map
      (fun a => a.balance)).sum = totalBalance s
  rw [sum_map_updateBalance, countP_updateBalance, sum_map_updateBalance]
  rw [countP_account_no_eq_one s.accounts fa hnodup hfa,
      countP_account_no_eq_one s.accounts ta hnodup hta]
  show (s.accounts.map (fun a => a.balance)).sum + _ + _ = _
  push_cast
  ring_nf
  rfl

/-- Witness for C2: Bob transfers 4 to Alice. -/
theorem C2_transfer_pair_conservation_witness :
    (transfer_money wState "B2" "A1" 4).2.transactions
      = wState.transactions ++ [⟨"B2", "transfer_out", 4, "Transfer", some "A1"⟩,
                                ⟨"A1", "transfer_in", 4, "Transfer", some "B2"⟩]
    ∧ totalBalance (transfer_money wState "B2" "A1" 4).2 = totalBalance wState :=
  C2_transfer_pair_conservation wState "B2" "A1" 4 (by decide) (by decide) (by decide)

/-- C3: for a registered account and a nonzero term, `apply_for_loan`
approves, credits the balance by exactly the principal, appends one loan
row with status active, interest `principal * rate * term / 1200`,
remaining equal to principal plus interest and monthly payment equal to
that total divided by the term, and records exactly one
`loan_disbursement` transaction of the principal. -/
theorem C3_loan_application (s : BankState) (acc : String) (amount rate : ℚ) (term : Nat)
    (hterm : term ≠ 0) (hacc : account_exists s acc = true) :
    ((apply_for_loan s acc amount term rate).1).1 = true
    ∧ get_balance (apply_for_loan s acc amount term rate).2 acc = get_balance s acc + amount
    ∧ (apply_for_loan s acc amount term rate).2.loans
        = s.loans ++ [⟨s.loans.length + 1, acc, amount, rate, term,
            (amount + amount * rate * (term : ℚ) / 1200) / (term : ℚ),
            amount + amount * rate * (term : ℚ) / 1200, "active"⟩]
    ∧ (apply_for_loan s acc amount term rate).2.transactions
        = s.transactions ++ [⟨acc, "loan_disbursement", amount, "Loan", none⟩] := by
  rw [apply_for_loan_ok s acc amount term rate hterm]
  refine ⟨rfl, ?_, ?_, rfl⟩
  · show balanceOf (updateBalance s.accounts acc amount) acc = _
    exact balanceOf_updateBalance s.accounts acc amount hacc
  · rw [show ((12 : ℚ) * 100) = 1200 by norm_num]

/-- Witness for C3 on the spec's own example: principal 1000, term 12,
rate 10 give interest 100, total repayable 1100 and a single active loan
row on Alice's account. -/
theorem C3_loan_application_witness :
    (apply_for_loan wState "A1" 1000 12 10).2.loans
      = wState.loans ++ [⟨1, "A1", 1000, 10, 12,
          (1000 + 1000 * 10 * (12 : ℚ) / 1200) / (12 : ℚ),
          1000 + 1000 * 10 * (12 : ℚ) / 1200, "active"⟩]
    ∧ get_balance (apply_for_loan wState "A1" 1000 12 10).2 "A1"
        = get_balance wState "A1" + 1000 :=
  ⟨(C3_loan_application wState "A1" 1000 10 12 (by decide) (by decide)).2.2.1,
   (C3_loan_application wState "A1" 1000 10 12 (by decide) (by decide)).2.1⟩

end BankSys

namespace BankSys

/-- Rewriting the matching loan rows commutes with looking one up by id,
provided the rewrite keeps the id. -/
theorem find?_loans_map_ite (loans : List Loan) (lid : Nat) (g : Loan → Loan)
    (hg : ∀ l, (g l).loan_id = l.loan_id) :
    (loans.map (fun l => if l.loan_id == lid then g l else l)).find?
        (fun l => l.loan_id == lid)
      = (loans.find? (fun l => l.loan_id == lid)).map g := by
  induction loans with
  | nil => rfl
  | cons a loans ih =>
    by_cases h : a.loan_id = lid
    · simp only [List.map_cons]
      rw [if_pos (by simp [h])]
      rw [List.find?_cons_of_pos _ (by simp [hg, h]),
        List.find?_cons_of_pos _ (by simp [h])]
      rfl
    · simp only [List.map_cons]
      rw [if_neg (by simp [h])]
      rw [List.find?_cons_of_neg _ (by simp [h]),
        List.find?_cons_of_neg _ (by simp [h])]
      exact ih

/-- With unique loan ids, the row found by id-and-active is the row
found by id alone. -/
theorem find?_of_findActive (loans : List Loan) (lid : Nat) (loan : Loan)
    (hn : (loans.map (fun l => l.loan_id)).Nodup)
    (h : loans.find? (fun l => l.loan_id == lid && l.status == "active") = some loan) :
    loans.find? (fun l => l.loan_id == lid) = some loan := by
  induction loans with
  | nil => simp at h
  | cons a loans ih =>
    simp only [List.map_cons, List.nodup_cons] at hn
    rw [List.find?_cons] at h
    rw [List.find?_cons]
    by_cases hb : (a.loan_id == lid && a.status == "active") = true
    · simp only [hb] at h
      have hid : (a.loan_id == lid) = true := by
        simp only [Bool.and_eq_true] at hb
        exact hb.1
      simp only [hid]
      exact h
    · have hb' : (a.loan_id == lid && a.status == "active") = false := by
        cases hx : (a.loan_id == lid && a.status == "active")
        · rfl
        · exact absurd hx hb
      simp only [hb'] at h
      by_cases hid : a.loan_id = lid
      · exfalso
        have hmem : loan ∈ loans := List.mem_of_find?_eq_some h
        have hp := List.find?_some h
        have hlid : loan.loan_id = lid := by
          simp only [Bool.and_eq_true, beq_iff_eq] at hp
          exact hp.1
        exact hn.1 (by rw [hid, ← hlid]; exact List.mem_map_of_mem _ hmem)
      · simp only [show (a.loan_id == lid) = false from by simp [hid]]
        exact ih hn.2 h

/-- On success the rewritten loan row read back by id: remaining
decremented by the payment, status from the SQL CASE. -/
theorem getLoan_after_payment (s : BankState) (lid : Nat) (p : ℚ) (loan : Loan)
    (hn : (s.loans.map (fun l => l.loan_id)).Nodup)
    (hA : findActiveLoan s lid = some loan)
    (h2 : ¬ get_balance s loan.account_no < p) :
    getLoan (make_loan_payment s lid p).2 lid
      = some { loan with
          remaining_amount := loan.remaining_amount - p,
          status := if loan.remaining_amount - p ≤ 0 then "completed" else "active" } := by
  rw [make_loan_payment_ok s lid p loan hA h2]
  show (s.loans.map (fun l =>
      if l.loan_id == lid then
        { l with
            remaining_amount := loan.remaining_amount - p,
            status := if l.remaining_amount - p ≤ 0 then "completed" else "active" }
      else l)).find? (fun l => l.loan_id == lid) = _
  rw [find?_loans_map_ite s.loans lid
    (fun l => { l with
      remaining_amount := loan.remaining_amount - p,
      status := if l.remaining_amount - p ≤ 0 then "completed" else "active" })
    (fun l => rfl)]
  rw [find?_of_findActive s.loans lid loan hn hA]
  rfl

/-- C4: `make_loan_payment` declines when no active loan with the id
exists, declines with insufficient funds when the owning account's
balance is below the payment, and on success rewrites the loan row to
remaining minus payment with status completed exactly when the new
remaining amount is at most zero, debits the account by the payment, and
appends one `loan_payment` transaction of that amount. -/
theorem C4_loan_payment (s : BankState) (lid : Nat) (p : ℚ)
    (hnodup : (s.loans.map (fun l => l.loan_id)).Nodup) :
    (findActiveLoan s lid = none →
      make_loan_payment s lid p = ((false, "Loan not found or inactive"), s))
    ∧ (∀ loan, findActiveLoan s lid = some loan →
        (get_balance s loan.account_no < p →
          make_loan_payment s lid p = ((false, "Insufficient funds"), s))
        ∧ (¬ get_balance s loan.account_no < p →
            ((make_loan_payment s lid p).1).1 = true
            ∧ getLoan (make_loan_payment s lid p).2 lid
                = some { loan with
                    remaining_amount := loan.remaining_amount - p,
                    status := if loan.remaining_amount - p ≤ 0 then "completed" else "active" }
            ∧ (account_exists s loan.account_no = true →
                get_balance (make_loan_payment s lid p).2 loan.account_no
                  = get_balance s loan.account_no - p)
            ∧ (make_loan_payment s lid p).2.transactions
                = s.transactions ++ [⟨loan.account_no, "loan_payment", p, "Loan Payment", none⟩])) := by
  refine ⟨fun h => make_loan_payment_not_found s lid p h, fun loan hA => ⟨?_, ?_⟩⟩
  · exact fun h2 => make_loan_payment_insufficient s lid p loan hA h2
  · intro h2
    refine ⟨?_, getLoan_after_payment s lid p loan hnodup hA h2, ?_, ?_⟩
    · rw [make_loan_payment_ok s lid p loan hA h2]
    · intro hex
      rw [make_loan_payment_ok s lid p loan hA h2]
      show balanceOf (updateBalance s.accounts loan.account_no (-p)) loan.account_no = _
      rw [balanceOf_updateBalance s.accounts loan.account_no (-p) hex]
      show get_balance s loan.account_no + (-p) = _
      ring
    · rw [make_loan_payment_ok s lid p loan hA h2]

/-- Concrete loan row used by the C4 witness: Bob owes 8 on loan 1. -/
def wLoan : Loan := ⟨1, "B2", 100, 10, 12, 10, 8, "active"⟩

/-- Concrete store with Bob's active loan. -/
def wLoanState : BankState := ⟨wAccounts, [], [wLoan]⟩

/-- Witness for C4: Bob pays the full remaining 8 from his balance of
10; the payment succeeds and the loan row transitions to completed with
remaining 0. -/
theorem C4_loan_payment_witness :
    ((make_loan_payment wLoanState 1 8).1).1 = true
    ∧ getLoan (make_loan_payment wLoanState 1 8).2 1
        = some { wLoan with
            remaining_amount := wLoan.remaining_amount - 8,
            status := if wLoan.remaining_amount - 8 ≤ 0 then "completed" else "active" } :=
  let h := (((C4_loan_payment wLoanState 1 8 (by decide)).2 wLoan (by decide)).2 (by decide))
  ⟨h.1, h.2.1⟩

end BankSys

namespace BankSys

/-- Counterexample for C5 as stated: `create_account` does not return a
failure indicator on an invalid or duplicate email — it raises
`ValueError` (the `CreateOutcome.raisedValueError` constructor), which
the form handler catches with `except ValueError`. On an empty store,
the invalid email "not-an-email" raises, and registering
"alice@mail.com" twice raises on the second call. -/
theorem C5_counterexample :
    (create_account id "AB12CD34" ⟨[], [], []⟩ "Alice" "pw123456" "not-an-email").1
      = CreateOutcome.raisedValueError "Error creating account: Invalid email format"
    ∧ (create_account id "CD34EF56"
        (create_account id "AB12CD34" ⟨[], [], []⟩ "Alice" "pw123456" "alice@mail.com").2
        "Bob" "pw234567" "alice@mail.com").1
      = CreateOutcome.raisedValueError "Email already registered" := by
  exact ⟨rfl, rfl⟩

/-- C5 (amended): for insufficient funds, missing recipient and
missing-or-inactive loan, the ledger operations return a structured
failure indicator with a reason and leave the store unchanged;
`create_account`, by contrast, signals a syntactically invalid email and
a duplicate email by raising `ValueError` (caught by the caller), not by
returning a failure indicator. -/
theorem C5_failure_modes (hash : String → String) (fid : String) (s : BankState)
    (name pw email : String) :
    (validate_email email = false →
      create_account hash fid s name pw email
        = (CreateOutcome.raisedValueError "Error creating account: Invalid email format", s))
    ∧ (validate_email email = true →
        s.accounts.any (fun a => a.email == email) = true →
        create_account hash fid s name pw email
          = (CreateOutcome.raisedValueError "Email already registered", s))
    ∧ (∀ acc amount cat rec, get_balance s acc < amount →
        record_transaction s acc "withdraw" amount cat rec = (false, s))
    ∧ (∀ fa ta amount, account_exists s ta = false →
        transfer_money s fa ta amount = ((false, "Recipient account not found"), s))
    ∧ (∀ lid p, findActiveLoan s lid = none →
        make_loan_payment s lid p = ((false, "Loan not found or inactive"), s)) := by
  refine ⟨?_, ?_, ?_, ?_, ?_⟩
  · intro h
    unfold create_account
    rw [if_pos h]
  · intro h1 h2
    unfold create_account
    rw [if_neg (by simp [h1]), if_pos h2]
  · exact fun acc amount cat rec h => record_transaction_withdraw_declined s acc amount cat rec h
  · exact fun fa ta amount h => transfer_money_not_found s fa ta amount h
  · exact fun lid p h => make_loan_payment_not_found s lid p h

/-- Witness for the amended C5 on a concrete invalid email. -/
theorem C5_failure_modes_witness :
    create_account id "AB12CD34" wState "Carol" "pw345678" "not-an-email"
      = (CreateOutcome.raisedValueError "Error creating account: Invalid email format", wState) :=
  (C5_failure_modes id "AB12CD34" wState "Carol" "pw345678" "not-an-email").1 (by decide)

/-- C8 (code defect): `record_transaction` never checks that the
account exists, and the FOREIGN KEY declared in `create_tables` is not
enforced because the sqlite connection never issues
`PRAGMA foreign_keys = ON`. On an empty store, a deposit for the
unregistered identifier GHOST returns True and appends a transaction row
whose owning account does not exist — the claimed referential invariant
is violated by the code. -/
theorem C8_dangling_transaction :
    (record_transaction ⟨[], [], []⟩ "GHOST" "deposit" 5 "Misc" none).1 = true
    ∧ ∃ t ∈ (record_transaction ⟨[], [], []⟩ "GHOST" "deposit" 5 "Misc" none).2.transactions,
        ∀ a ∈ (record_transaction ⟨[], [], []⟩ "GHOST" "deposit" 5 "Misc" none).2.accounts,
          a.account_no ≠ t.account_no := by
  decide

/-- With unique account numbers, the row of a member account is exactly
the one `find?` returns for any predicate that refines its number. -/
theorem find?_unique_account (l : List Account) (acc : String) (q : Account → Bool)
    (a : Account) (hnodup : (l.map (fun x => x.account_no)).Nodup)
    (ha : a ∈ l) (h1 : a.account_no = acc) (h2 : q a = true) :
    l.find? (fun x => x.account_no == acc && q x) = some a := by
  induction l with
  | nil => simp at ha
  | cons b l ih =>
    simp only [List.map_cons, List.nodup_cons] at hnodup
    rw [List.find?_cons]
    rcases List.mem_cons.mp ha with rfl | hal
    · simp [h1, h2]
    · have hbne : b.account_no ≠ acc := by
        intro he
        exact hnodup.1 (by rw [he, ← h1]; exact List.mem_map_of_mem _ hal)
      simp only [show (b.account_no == acc && q b) = false from by simp [hbne]]
      exact ih hnodup.2 hal

/-- C9: `validate_login` fails closed: it returns the not-authenticated
result unless a row with the given identifier exists whose stored hash
equals the hash of the supplied password; with unique account numbers, a
correct password returns exactly that row's name, email and balance. -/
theorem C9_login_fails_closed (hash : String → String) (s : BankState) (acc pw : String) :
    ((¬ ∃ a ∈ s.accounts, a.account_no = acc ∧ a.password = hash pw) →
      validate_login hash s acc pw = none)
    ∧ (∀ a ∈ s.accounts, (s.accounts.map (fun x => x.account_no)).Nodup →
        a.account_no = acc → a.password = hash pw →
        validate_login hash s acc pw = some (acc, a.name, a.email, a.balance)) := by
  constructor
  · intro h
    unfold validate_login
    have hn : s.accounts.find? (fun x => x.account_no == acc && x.password == hash pw)
        = none := by
      apply List.find?_eq_none.mpr
      intro a ha
      simp only [Bool.and_eq_true, beq_iff_eq, not_and]
      intro ha1 ha2
      exact h ⟨a, ha, ha1, ha2⟩
    rw [hn]
  · intro a ha hnodup h1 h2
    unfold validate_login
    rw [find?_unique_account s.accounts acc (fun x => x.password == hash pw) a hnodup ha h1
      (by simp [h2])]
    simp [h1]

/-- Witness for C9: Alice logs in with the correct password and gets
back her own name, email and balance. -/
theorem C9_login_fails_closed_witness :
    validate_login id wState "A1" "h1" = some ("A1", "Alice", "alice@mail.com", 0) :=
  (C9_login_fails_closed id wState "A1" "h1").2 ⟨"A1", "Alice", "h1", 0, "alice@mail.com"⟩
    (by decide) (by decide) (by decide) (by decide)

end BankSys
